import Mathlib

/-!
# Team API bindings (`team.go`): request forms, transport calls and error unwrapping

A shallow embedding of `src/team.go`.

* Go pointers (`*T`) are `Option T`, `nil` being `none`; `&x` is `some x`.
* Go slices and maps that are decoded from a response are `Option`s as well, so that a
  `nil` slice or map (`none`) is told apart from an empty one.
* `url.Values` (`map[string][]string`) is a lookup function from keys to value lists.
* Go `int` is `Int`; no arithmetic is done on it in this file, only `strconv.Itoa`.
* Every operation returns, next to its Go results, the list of transport calls it made.
-/

set_option linter.dupNamespace false

namespace Slack

/-! ## Go runtime values -/

/-- A decoded slice: `none` is the `nil` slice. -/
abbrev Slice (α : Type) := Option (List α)

/-- A decoded `map[string]α`: `none` is the `nil` map, otherwise the lookup function. -/
abbrev GoMap (α : Type) := Option (String → Option α)

/-- A value decoded from JSON into `interface{}`. -/
inductive JSONValue where
  | null
  | bool (b : Bool)
  | number (literal : String)
  | string (s : String)
  | array (items : List JSONValue)
  | object (members : List (String × JSONValue))

/-- The `context.Context` handed through to the transport, never inspected by `team.go`. -/
structure Context where
  id : Nat
deriving DecidableEq, Repr

/-- A Go `error` value: what the transport may fail with (network or HTTP failure,
decode failure) and the error built from a response envelope. -/
inductive GoError where
  | transport (msg : String)
  | decode (msg : String)
  | slackErrorResponse (err : String)
deriving DecidableEq, Repr

/-- The result of a Go function body that may dereference a pointer: either it returns,
or it stops with a run-time panic on a `nil` pointer. -/
inductive Outcome (α : Type) where
  | returned (v : α)
  | nilDereference

/-- The function `strconv.Itoa`: the decimal rendering of an `int`. -/
def strconv.Itoa (i : Int) : String :=
  match i with
  | Int.ofNat n => Nat.repr n
  | Int.negSucc n => "-" ++ Nat.repr (n + 1)

/-! ## `url.Values` -/

/-- The type `url.Values`, a `map[string][]string`: `get k = none` when the key is absent. -/
@[ext]
structure Values where
  get : String → Option (List String)

/-- The composite literal `url.Values{"token": {token}}`. -/
def Values.token (token : String) : Values :=
  ⟨fun k => if k = "token" then some [token] else none⟩

/-- The method `Values.Add`: `v[key] = append(v[key], value)`. -/
def Values.Add (v : Values) (key value : String) : Values :=
  ⟨fun k => if k = key then some ((v.get key).getD [] ++ [value]) else v.get k⟩

/-- The map assignment `v[key] = vs`. -/
def Values.set (v : Values) (key : String) (vs : List String) : Values :=
  ⟨fun k => if k = key then some vs else v.get k⟩

/-! ## Response envelope -/

/-- Modelled from the spec: the response-metadata type that `SlackResponse` carries is
declared outside `team.go`; the source reads its `Cursor` field, and the spec calls it
"a pagination-cursor-bearing response-metadata type reused across endpoints". -/
structure ResponseMetadata where
  Cursor : String := ""

/-- Modelled from the spec: `SlackResponse` is declared outside `team.go`. The spec's
envelope: "every response carries a boolean success flag and an optional error
string/code"; the source reads its promoted field `ResponseMetadata`. -/
structure SlackResponse where
  Ok : Bool := false
  Error : String := ""
  ResponseMetadata : ResponseMetadata := {}

/-- Modelled from the spec: the method `SlackResponse.Err` is declared outside `team.go`.
"After successful decode, inspect the envelope's error indicator. If set, the operation
returns a domain error constructed from the envelope's message/code": an envelope whose
success flag is false yields the error built from its error string, a successful one
yields `nil`. -/
def SlackResponse.Err (t : SlackResponse) : Option GoError :=
  if t.Ok then none else some (GoError.slackErrorResponse t.Error)

/-- Modelled from the spec: the unexported type `responseMetaData` is declared outside
`team.go`; the field `ResponseMetaData` of the external-teams response has this type,
under the JSON key `response_metadata`, and holds the pagination cursor `next_cursor`. -/
structure responseMetaData where
  NextCursor : String := ""

/-! ## Data model of `team.go` -/

structure TeamInfo where
  ID : String := ""
  Name : String := ""
  Domain : String := ""
  EmailDomain : String := ""
  Icon : GoMap JSONValue := none

structure TeamResponse extends SlackResponse where
  Team : TeamInfo := {}

structure TeamProfileField where
  ID : String := ""
  Ordering : Int := 0
  Label : String := ""
  Hint : String := ""
  Type_ : String := ""
  PossibleValues : Slice String := none
  IsHidden : Bool := false
  Options : GoMap Bool := none

structure TeamProfile where
  Fields : Slice TeamProfileField := none

structure TeamProfileResponse extends SlackResponse where
  Profile : TeamProfile := {}

structure Login where
  UserID : String := ""
  Username : String := ""
  DateFirst : Int := 0
  DateLast : Int := 0
  Count : Int := 0
  IP : String := ""
  UserAgent : String := ""
  ISP : String := ""
  Country : String := ""
  Region : String := ""

/-- Modelled from the spec: `Paging` is declared outside `team.go`; "page cursor metadata
(count, page number, total, pages) returned alongside logins". -/
structure Paging where
  Count : Int := 0
  Total : Int := 0
  Page : Int := 0
  Pages : Int := 0

structure LoginResponse extends SlackResponse where
  Logins : Slice Login := none
  Paging : Paging := {}

structure BillingActive where
  BillingActive : Bool := false

structure BillableInfoResponse extends SlackResponse where
  BillableInfo : GoMap BillingActive := none

/-- Modelled from the spec: `Organization` is declared outside `team.go`, an
"external/connected-team record"; no field of it is read here, so the record is kept as
its decoded members. -/
structure Organization where
  members : List (String × JSONValue) := []

/-- The anonymous response struct of `GetExternalTeamsContext`: the fields
`Organizations`, `ResponseMetaData` and the embedded `SlackResponse`. -/
structure ExternalTeamsResponse extends SlackResponse where
  Organizations : Slice (Option Organization) := none
  ResponseMetaData : responseMetaData := {}

def DEFAULT_LOGINS_COUNT : Int := 100

def DEFAULT_LOGINS_PAGE : Int := 1

structure AccessLogParameters where
  TeamID : String := ""
  Count : Int := 0
  Page : Int := 0

def NewAccessLogParameters : AccessLogParameters :=
  { Count := DEFAULT_LOGINS_COUNT, Page := DEFAULT_LOGINS_PAGE }

/-- Parameter slices are only measured (`len`) and indexed at 0, so a `nil` slice and an
empty one behave alike: both are `[]`. -/
structure GetExternalTeamsParameters where
  ConnectionStatusFilter : String := ""
  Cursor : String := ""
  Limit : Int := 0
  SlackConnectPrefFilter : List String := []
  SortDirection : String := ""
  SortField : String := ""
  WorkspaceFilter : List String := []

structure GetBillableInfoParams where
  User : String := ""
  TeamID : String := ""

/-! ## Client and transport -/

/-- The destination types handed to `postMethod` by `team.go`. -/
inductive DestKind where
  | teamResponse
  | billableInfoResponse
  | loginResponse
  | teamProfileResponse
  | externalTeamsResponse
deriving DecidableEq, Repr

/-- The Go type of a destination. -/
def DestKind.type : DestKind → Type
  | .teamResponse => TeamResponse
  | .billableInfoResponse => BillableInfoResponse
  | .loginResponse => LoginResponse
  | .teamProfileResponse => TeamProfileResponse
  | .externalTeamsResponse => ExternalTeamsResponse

/-- Modelled from the spec: the `httpClient` held by the client is declared outside
`team.go` and only passed along, never used, by this file. -/
structure httpClient where
  id : Nat := 0

/-- Modelled from the spec: `Client` and its method `postMethod` are declared outside
`team.go`. "A POST-capable HTTP transport accepting (context, path, form values,
destination-for-decoded-JSON) and returning a transport error": `postMethod` is a
parameter of the client. It is given the destination as the caller holds it and answers
with its error and with the destination as it has decoded into it; a caller that passed a
pointer sees the decoded destination, a caller that passed the struct by value keeps its
own, untouched copy. -/
structure Client where
  token : String
  httpclient : httpClient := {}
  postMethod : Context → String → Values → (k : DestKind) → k.type → Option GoError × k.type

/-- One call of `postMethod`: the context, the path and the form submitted. -/
structure Call where
  ctx : Context
  path : String
  values : Values

/-- Go results together with the transport calls made to obtain them, in order. -/
structure Traced (α : Type) where
  calls : List Call
  ret : α

/-! ## Request helpers

Each helper makes one `postMethod` call; its trace is that call, its Go results follow
the `if err != nil` test of the source. -/

def Client.teamRequest (api : Client) (ctx : Context) (path : String) (values : Values) :
    Traced (Option TeamResponse × Option GoError) :=
  let response : TeamResponse := {}
  let posted := api.postMethod ctx path values DestKind.teamResponse response
  ⟨[⟨ctx, path, values⟩],
    match posted.1 with
    | some err => (none, some err)
    | none => (some posted.2, posted.2.toSlackResponse.Err)⟩

def Client.billableInfoRequest (api : Client) (ctx : Context) (path : String)
    (values : Values) : Traced (GoMap BillingActive × Option GoError) :=
  let response : BillableInfoResponse := {}
  let posted := api.postMethod ctx path values DestKind.billableInfoResponse response
  ⟨[⟨ctx, path, values⟩],
    match posted.1 with
    | some err => (none, some err)
    | none => (posted.2.BillableInfo, posted.2.toSlackResponse.Err)⟩

def Client.accessLogsRequest (api : Client) (ctx : Context) (path : String)
    (values : Values) : Traced (Option LoginResponse × Option GoError) :=
  let response : LoginResponse := {}
  let posted := api.postMethod ctx path values DestKind.loginResponse response
  ⟨[⟨ctx, path, values⟩],
    match posted.1 with
    | some err => (none, some err)
    | none => (some posted.2, posted.2.toSlackResponse.Err)⟩

def Client.teamProfileRequest (api : Client) (ctx : Context) (_client : httpClient)
    (path : String) (values : Values) : Traced (Option TeamProfileResponse × Option GoError) :=
  let response : TeamProfileResponse := {}
  let posted := api.postMethod ctx path values DestKind.teamProfileResponse response
  ⟨[⟨ctx, path, values⟩],
    match posted.1 with
    | some err => (none, some err)
    | none => (some posted.2, posted.2.toSlackResponse.Err)⟩

/-! ## Operations -/

/-- The operation `GetExternalTeamsContext`. The element `[0]` of a parameter slice is read
under the guard `len > 0` (`headD` never falls back to its default). The struct
`response` is handed to `postMethod` by value
(`response`, not `&response`), so what the transport decodes never reaches the local
variable the results are read from; the cursor is read from the `ResponseMetadata` field
promoted from the embedded `SlackResponse`, not from the field `ResponseMetaData`. -/
def Client.GetExternalTeamsContext (api : Client) (ctx : Context)
    (params : Option GetExternalTeamsParameters) :
    Traced (Slice (Option Organization) × String × Option GoError) :=
  let values := Values.token api.token
  let values :=
    match params with
    | none => values
    | some params =>
      let values :=
        if params.ConnectionStatusFilter ≠ "" then
          values.Add "connection_status_filter" params.ConnectionStatusFilter
        else values
      let values := if params.Cursor ≠ "" then values.Add "cursor" params.Cursor else values
      let values :=
        if params.Limit ≠ 0 then values.Add "limit" (strconv.Itoa params.Limit) else values
      let values :=
        if params.SlackConnectPrefFilter.length > 0 then
          values.Add "slack_connect_pref_filter" (params.SlackConnectPrefFilter.headD "")
        else values
      let values :=
        if params.SortDirection ≠ "" then values.Add "sort_direction" params.SortDirection
        else values
      let values :=
        if params.SortField ≠ "" then values.Add "sort_field" params.SortField else values
      let values :=
        if params.WorkspaceFilter.length > 0 then
          values.Add "workspace_filter" (params.WorkspaceFilter.headD "")
        else values
      values
  let response : ExternalTeamsResponse := {}
  let posted := api.postMethod ctx "team.externalTeams.list" values
    DestKind.externalTeamsResponse response
  ⟨[⟨ctx, "team.externalTeams.list", values⟩],
    match posted.1 with
    | some err => (none, "", some err)
    | none =>
      (response.Organizations, response.toSlackResponse.ResponseMetadata.Cursor,
        response.toSlackResponse.Err)⟩

def Client.GetTeamInfoContext (api : Client) (ctx : Context) :
    Traced (Outcome (Option TeamInfo × Option GoError)) :=
  let values := Values.token api.token
  let r := api.teamRequest ctx "team.info" values
  ⟨r.calls,
    match r.ret with
    | (_, some err) => Outcome.returned (none, some err)
    | (some response, none) => Outcome.returned (some response.Team, none)
    | (none, none) => Outcome.nilDereference⟩

def Client.GetOtherTeamInfoContext (api : Client) (ctx : Context) (team : String) :
    Traced (Outcome (Option TeamInfo × Option GoError)) :=
  if team = "" then api.GetTeamInfoContext ctx
  else
    let values := Values.token api.token
    let values := values.Add "team" team
    let r := api.teamRequest ctx "team.info" values
    ⟨r.calls,
      match r.ret with
      | (_, some err) => Outcome.returned (none, some err)
      | (some response, none) => Outcome.returned (some response.Team, none)
      | (none, none) => Outcome.nilDereference⟩

/-- The variadic `teamID ...string` is the list of the ids supplied. -/
def Client.GetTeamProfileContext (api : Client) (ctx : Context) (teamID : List String) :
    Traced (Outcome (Option TeamProfile × Option GoError)) :=
  let values := Values.token api.token
  let values := if teamID.length > 0 then values.set "team_id" teamID else values
  let r := api.teamProfileRequest ctx api.httpclient "team.profile.get" values
  ⟨r.calls,
    match r.ret with
    | (_, some err) => Outcome.returned (none, some err)
    | (some response, none) => Outcome.returned (some response.Profile, none)
    | (none, none) => Outcome.nilDereference⟩

def Client.GetAccessLogsContext (api : Client) (ctx : Context) (params : AccessLogParameters) :
    Traced (Outcome (Slice Login × Option Paging × Option GoError)) :=
  let values := Values.token api.token
  let values := if params.TeamID ≠ "" then values.Add "team_id" params.TeamID else values
  let values :=
    if params.Count ≠ DEFAULT_LOGINS_COUNT then values.Add "count" (strconv.Itoa params.Count)
    else values
  let values :=
    if params.Page ≠ DEFAULT_LOGINS_PAGE then values.Add "page" (strconv.Itoa params.Page)
    else values
  let r := api.accessLogsRequest ctx "team.accessLogs" values
  ⟨r.calls,
    match r.ret with
    | (_, some err) => Outcome.returned (none, none, some err)
    | (some response, none) => Outcome.returned (response.Logins, some response.Paging, none)
    | (none, none) => Outcome.nilDereference⟩

def Client.GetBillableInfoContext (api : Client) (ctx : Context)
    (params : GetBillableInfoParams) : Traced (GoMap BillingActive × Option GoError) :=
  let values := Values.token api.token
  let values := if params.TeamID ≠ "" then values.Add "team_id" params.TeamID else values
  let values := if params.User ≠ "" then values.Add "user" params.User else values
  api.billableInfoRequest ctx "team.billableInfo" values

/-! ## Transport stubs and sample data -/

/-- A transport stub: whatever the request, it answers with the error and the decoded
destination fixed for the destination type it is handed. -/
def stubClient (token : String) (answer : (k : DestKind) → Option GoError × k.type) : Client :=
  { token := token, postMethod := fun _ _ _ k _ => answer k }

def sampleContext : Context := ⟨7⟩

def sampleTeam : TeamInfo :=
  { ID := "T1", Name := "acme", Domain := "acme", EmailDomain := "acme.test" }

def sampleProfile : TeamProfile :=
  { Fields := some [{ ID := "Xf1", Ordering := 1, Label := "Phone", Type_ := "text" }] }

def sampleLogin : Login :=
  { UserID := "U1", Username := "bob", DateFirst := 1422922864, DateLast := 1422922864,
    Count := 1, IP := "127.0.0.1" }

def samplePaging : Paging := { Count := 100, Total := 1, Page := 1, Pages := 1 }

def sampleBillableInfo : String → Option BillingActive :=
  fun user => if user = "U1" then some { BillingActive := true } else none

def sampleOrganization : Organization := { members := [("team_id", JSONValue.string "T2")] }

/-- A decoded response for each destination type, every payload field populated, under
the given envelope. -/
def populated (envelope : SlackResponse) : (k : DestKind) → k.type
  | .teamResponse => ({ toSlackResponse := envelope, Team := sampleTeam } : TeamResponse)
  | .billableInfoResponse =>
    ({ toSlackResponse := envelope, BillableInfo := some sampleBillableInfo } :
      BillableInfoResponse)
  | .loginResponse =>
    ({ toSlackResponse := envelope, Logins := some [sampleLogin], Paging := samplePaging } :
      LoginResponse)
  | .teamProfileResponse =>
    ({ toSlackResponse := envelope, Profile := sampleProfile } : TeamProfileResponse)
  | .externalTeamsResponse =>
    ({ toSlackResponse := envelope, Organizations := some [some sampleOrganization],
       ResponseMetaData := { NextCursor := "bmV4dA" } } : ExternalTeamsResponse)

/-- The stub's answer `{ok:false, error:"invalid_auth"}` with the payload fields populated
alongside. -/
def errorAnswer (k : DestKind) : Option GoError × k.type :=
  (none, populated { Ok := false, Error := "invalid_auth" } k)

/-- The stub's answer `{ok:true, ...}` with the payload fields populated; the cursor is
set in both response-metadata fields. -/
def okAnswer (k : DestKind) : Option GoError × k.type :=
  (none, populated { Ok := true, ResponseMetadata := { Cursor := "bmV4dA" } } k)

/-- The stub's answer when the transport fails: the error, the destination left at its
zero value. -/
def failedAnswer (e : GoError) : (k : DestKind) → Option GoError × k.type
  | .teamResponse => (some e, ({} : TeamResponse))
  | .billableInfoResponse => (some e, ({} : BillableInfoResponse))
  | .loginResponse => (some e, ({} : LoginResponse))
  | .teamProfileResponse => (some e, ({} : TeamProfileResponse))
  | .externalTeamsResponse => (some e, ({} : ExternalTeamsResponse))

/-! ## Lookup lemmas for `url.Values` -/

@[simp] theorem Values.get_token (t k : String) :
    (Values.token t).get k = if k = "token" then some [t] else none := rfl

@[simp] theorem Values.get_Add (v : Values) (key value k : String) :
    (v.Add key value).get k =
      if k = key then some ((v.get key).getD [] ++ [value]) else v.get k := rfl

@[simp] theorem Values.get_set (v : Values) (key : String) (vs : List String) (k : String) :
    (v.set key vs).get k = if k = key then some vs else v.get k := rfl

@[simp] theorem Values.get_ite (c : Prop) [Decidable c] (a b : Values) (k : String) :
    (if c then a else b).get k = if c then a.get k else b.get k := by
  split <;> rfl

/-! ## What each operation returns, in terms of the transport's answer to its one call -/

theorem Client.GetTeamInfoContext_spec (api : Client) (ctx : Context) :
    ∃ c, (api.GetTeamInfoContext ctx).calls = [c] ∧
      ∀ (oe : Option GoError) (r : TeamResponse),
        api.postMethod c.ctx c.path c.values DestKind.teamResponse ({} : TeamResponse)
          = (oe, r) →
        (api.GetTeamInfoContext ctx).ret =
          match oe, r.toSlackResponse.Err with
          | some e, _ => Outcome.returned (none, some e)
          | none, some e => Outcome.returned (none, some e)
          | none, none => Outcome.returned (some r.Team, none) := by
  refine ⟨_, rfl, ?_⟩
  intro oe r h
  dsimp only at h
  simp only [Client.GetTeamInfoContext, Client.teamRequest, h]
  cases oe with
  | some e => rfl
  | none =>
    cases hE : r.toSlackResponse.Err with
    | some e => simp [hE]
    | none => simp [hE]

theorem Client.GetOtherTeamInfoContext_empty (api : Client) (ctx : Context) :
    api.GetOtherTeamInfoContext ctx "" = api.GetTeamInfoContext ctx := by
  simp [Client.GetOtherTeamInfoContext]

theorem Client.GetOtherTeamInfoContext_spec (api : Client) (ctx : Context) (team : String) :
    ∃ c, (api.GetOtherTeamInfoContext ctx team).calls = [c] ∧
      ∀ (oe : Option GoError) (r : TeamResponse),
        api.postMethod c.ctx c.path c.values DestKind.teamResponse ({} : TeamResponse)
          = (oe, r) →
        (api.GetOtherTeamInfoContext ctx team).ret =
          match oe, r.toSlackResponse.Err with
          | some e, _ => Outcome.returned (none, some e)
          | none, some e => Outcome.returned (none, some e)
          | none, none => Outcome.returned (some r.Team, none) := by
  by_cases ht : team = ""
  · subst ht
    rw [Client.GetOtherTeamInfoContext_empty]
    exact Client.GetTeamInfoContext_spec api ctx
  · simp only [Client.GetOtherTeamInfoContext, if_neg ht]
    refine ⟨_, rfl, ?_⟩
    intro oe r h
    dsimp only at h
    simp only [Client.teamRequest, h]
    cases oe with
    | some e => rfl
    | none =>
      cases hE : r.toSlackResponse.Err with
      | some e => simp [hE]
      | none => simp [hE]

theorem Client.GetTeamProfileContext_spec (api : Client) (ctx : Context)
    (teamID : List String) :
    ∃ c, (api.GetTeamProfileContext ctx teamID).calls = [c] ∧
      ∀ (oe : Option GoError) (r : TeamProfileResponse),
        api.postMethod c.ctx c.path c.values DestKind.teamProfileResponse
          ({} : TeamProfileResponse) = (oe, r) →
        (api.GetTeamProfileContext ctx teamID).ret =
          match oe, r.toSlackResponse.Err with
          | some e, _ => Outcome.returned (none, some e)
          | none, some e => Outcome.returned (none, some e)
          | none, none => Outcome.returned (some r.Profile, none) := by
  refine ⟨_, rfl, ?_⟩
  intro oe r h
  dsimp only at h
  simp only [Client.GetTeamProfileContext, Client.teamProfileRequest, h]
  cases oe with
  | some e => rfl
  | none =>
    cases hE : r.toSlackResponse.Err with
    | some e => simp [hE]
    | none => simp [hE]

theorem Client.GetAccessLogsContext_spec (api : Client) (ctx : Context)
    (params : AccessLogParameters) :
    ∃ c, (api.GetAccessLogsContext ctx params).calls = [c] ∧
      ∀ (oe : Option GoError) (r : LoginResponse),
        api.postMethod c.ctx c.path c.values DestKind.loginResponse ({} : LoginResponse)
          = (oe, r) →
        (api.GetAccessLogsContext ctx params).ret =
          match oe, r.toSlackResponse.Err with
          | some e, _ => Outcome.returned (none, none, some e)
          | none, some e => Outcome.returned (none, none, some e)
          | none, none => Outcome.returned (r.Logins, some r.Paging, none) := by
  refine ⟨_, rfl, ?_⟩
  intro oe r h
  dsimp only at h
  simp only [Client.GetAccessLogsContext, Client.accessLogsRequest, h]
  cases oe with
  | some e => rfl
  | none =>
    cases hE : r.toSlackResponse.Err with
    | some e => simp [hE]
    | none => simp [hE]

theorem Client.GetBillableInfoContext_spec (api : Client) (ctx : Context)
    (params : GetBillableInfoParams) :
    ∃ c, (api.GetBillableInfoContext ctx params).calls = [c] ∧
      ∀ (oe : Option GoError) (r : BillableInfoResponse),
        api.postMethod c.ctx c.path c.values DestKind.billableInfoResponse
          ({} : BillableInfoResponse) = (oe, r) →
        (api.GetBillableInfoContext ctx params).ret =
          match oe with
          | some e => (none, some e)
          | none => (r.BillableInfo, r.toSlackResponse.Err) := by
  refine ⟨_, rfl, ?_⟩
  intro oe r h
  dsimp only at h
  simp only [Client.GetBillableInfoContext, Client.billableInfoRequest, h]

theorem Client.GetExternalTeamsContext_spec (api : Client) (ctx : Context)
    (params : Option GetExternalTeamsParameters) :
    ∃ c, (api.GetExternalTeamsContext ctx params).calls = [c] ∧
      ∀ (oe : Option GoError) (r : ExternalTeamsResponse),
        api.postMethod c.ctx c.path c.values DestKind.externalTeamsResponse
          ({} : ExternalTeamsResponse) = (oe, r) →
        (api.GetExternalTeamsContext ctx params).ret =
          match oe with
          | some e => (none, "", some e)
          | none => (none, "", SlackResponse.Err {}) := by
  refine ⟨_, rfl, ?_⟩
  intro oe r h
  dsimp only at h
  simp only [Client.GetExternalTeamsContext, h]

/-- None of the four operations that take the address of a field of the helper's response
stops on a nil pointer: each returns. -/
theorem Client.operations_return (api : Client) (ctx : Context) :
    (api.GetTeamInfoContext ctx).ret ≠ Outcome.nilDereference ∧
    (∀ team : String, (api.GetOtherTeamInfoContext ctx team).ret ≠ Outcome.nilDereference) ∧
    (∀ teamID : List String,
      (api.GetTeamProfileContext ctx teamID).ret ≠ Outcome.nilDereference) ∧
    (∀ params : AccessLogParameters,
      (api.GetAccessLogsContext ctx params).ret ≠ Outcome.nilDereference) := by
  refine ⟨?_, ?_, ?_, ?_⟩
  · obtain ⟨c, _, hret⟩ := Client.GetTeamInfoContext_spec api ctx
    rw [hret _ _ rfl]
    split <;> simp
  · intro team
    obtain ⟨c, _, hret⟩ := Client.GetOtherTeamInfoContext_spec api ctx team
    rw [hret _ _ rfl]
    split <;> simp
  · intro teamID
    obtain ⟨c, _, hret⟩ := Client.GetTeamProfileContext_spec api ctx teamID
    rw [hret _ _ rfl]
    split <;> simp
  · intro params
    obtain ⟨c, _, hret⟩ := Client.GetAccessLogsContext_spec api ctx params
    rw [hret _ _ rfl]
    split <;> simp

/-! ## Request forms -/

/-- C5. For every `AccessLogParameters` value and token, `GetAccessLogsContext` makes one
call, to path `team.accessLogs`, whose form is exactly: `token` with the client's token;
`team_id` with `TeamID` iff `TeamID` is non-empty; `count` with the decimal string of
`Count` iff `Count` is not 100; `page` with the decimal string of `Page` iff `Page` is not
1; no other key. In particular the defaults 100 and 1 of `NewAccessLogParameters` are not
in the form, and 0 and negative numbers are present as their decimal strings. -/
theorem GetAccessLogsContext_form (api : Client) (ctx : Context) (p : AccessLogParameters) :
    (∃ form, (api.GetAccessLogsContext ctx p).calls = [⟨ctx, "team.accessLogs", form⟩] ∧
      form.get "token" = some [api.token] ∧
      form.get "team_id" = (if p.TeamID = "" then none else some [p.TeamID]) ∧
      form.get "count" = (if p.Count = 100 then none else some [strconv.Itoa p.Count]) ∧
      form.get "page" = (if p.Page = 1 then none else some [strconv.Itoa p.Page]) ∧
      (∀ k, k ≠ "token" → k ≠ "team_id" → k ≠ "count" → k ≠ "page" → form.get k = none)) ∧
    (∃ form, (api.GetAccessLogsContext ctx NewAccessLogParameters).calls
        = [⟨ctx, "team.accessLogs", form⟩] ∧
      form.get "token" = some [api.token] ∧ ∀ k, k ≠ "token" → form.get k = none) ∧
    (∃ form, (api.GetAccessLogsContext ctx { Count := 0, Page := -3 }).calls
        = [⟨ctx, "team.accessLogs", form⟩] ∧
      form.get "count" = some ["0"] ∧ form.get "page" = some ["-3"]) := by
  refine ⟨⟨_, rfl, ?_⟩, ⟨_, rfl, ?_⟩, ⟨_, rfl, ?_⟩⟩
  · simp only [DEFAULT_LOGINS_COUNT, DEFAULT_LOGINS_PAGE]
    refine ⟨by simp, by simp, by simp, by simp, ?_⟩
    intro k h1 h2 h3 h4
    simp [h1, h2, h3, h4]
  · simp only [NewAccessLogParameters]
    refine ⟨by simp, ?_⟩
    intro k h1
    simp [h1]
  · simp only [DEFAULT_LOGINS_COUNT, DEFAULT_LOGINS_PAGE]
    refine ⟨?_, ?_⟩
    · simp
      decide
    · simp
      decide

/-- C8. For every `GetBillableInfoParams` value and token, `GetBillableInfoContext` makes
one call, to path `team.billableInfo`, whose form is exactly: `token` with the client's
token; `team_id` with `TeamID` iff `TeamID` is non-empty; `user` with `User` iff `User` is
non-empty; no other key. With neither set, only `token` is submitted. -/
theorem GetBillableInfoContext_form (api : Client) (ctx : Context)
    (p : GetBillableInfoParams) :
    (∃ form, (api.GetBillableInfoContext ctx p).calls = [⟨ctx, "team.billableInfo", form⟩] ∧
      form.get "token" = some [api.token] ∧
      form.get "team_id" = (if p.TeamID = "" then none else some [p.TeamID]) ∧
      form.get "user" = (if p.User = "" then none else some [p.User]) ∧
      (∀ k, k ≠ "token" → k ≠ "team_id" → k ≠ "user" → form.get k = none)) ∧
    (api.GetBillableInfoContext ctx { User := "", TeamID := "" }).calls
      = [⟨ctx, "team.billableInfo", Values.token api.token⟩] := by
  refine ⟨⟨_, rfl, by simp, by simp, by simp, ?_⟩, rfl⟩
  intro k h1 h2 h3
  simp [h1, h2, h3]

/-- C6. For every params value (including nil) and token, `GetExternalTeamsContext` makes
one call, to path `team.externalTeams.list`. With nil params its form is only `token`.
With non-nil params the form is exactly: `token`; `connection_status_filter`, `cursor`,
`sort_direction`, `sort_field`, each with its single string iff that string is non-empty;
`limit` with the decimal string of `Limit` iff `Limit` is not 0;
`slack_connect_pref_filter` and `workspace_filter`, each present iff its list is non-empty
and then holding only the list's first element; no other key. A workspace filter of two
elements submits only the first. -/
theorem GetExternalTeamsContext_form (api : Client) (ctx : Context) :
    (api.GetExternalTeamsContext ctx none).calls
      = [⟨ctx, "team.externalTeams.list", Values.token api.token⟩] ∧
    (∀ p : GetExternalTeamsParameters,
      ∃ form, (api.GetExternalTeamsContext ctx (some p)).calls
          = [⟨ctx, "team.externalTeams.list", form⟩] ∧
        form.get "token" = some [api.token] ∧
        form.get "connection_status_filter"
          = (if p.ConnectionStatusFilter = "" then none else some [p.ConnectionStatusFilter]) ∧
        form.get "cursor" = (if p.Cursor = "" then none else some [p.Cursor]) ∧
        form.get "limit" = (if p.Limit = 0 then none else some [strconv.Itoa p.Limit]) ∧
        form.get "slack_connect_pref_filter"
          = (match p.SlackConnectPrefFilter with
             | [] => none
             | first :: _ => some [first]) ∧
        form.get "sort_direction"
          = (if p.SortDirection = "" then none else some [p.SortDirection]) ∧
        form.get "sort_field" = (if p.SortField = "" then none else some [p.SortField]) ∧
        form.get "workspace_filter"
          = (match p.WorkspaceFilter with
             | [] => none
             | first :: _ => some [first]) ∧
        (∀ k, k ≠ "token" → k ≠ "connection_status_filter" → k ≠ "cursor" → k ≠ "limit" →
          k ≠ "slack_connect_pref_filter" → k ≠ "sort_direction" → k ≠ "sort_field" →
          k ≠ "workspace_filter" → form.get k = none)) ∧
    (∀ (p : GetExternalTeamsParameters) (w1 w2 : String),
      ∃ form, (api.GetExternalTeamsContext ctx (some { p with WorkspaceFilter := [w1, w2] })).calls
          = [⟨ctx, "team.externalTeams.list", form⟩] ∧
        form.get "workspace_filter" = some [w1]) := by
  refine ⟨rfl, ?_, ?_⟩
  · intro p
    refine ⟨_, rfl, by simp, by simp, by simp, by simp, ?_, by simp, by simp, ?_, ?_⟩
    · cases h : p.SlackConnectPrefFilter <;> simp [h]
    · cases h : p.WorkspaceFilter <;> simp [h]
    · intro k h1 h2 h3 h4 h5 h6 h7 h8
      simp [h1, h2, h3, h4, h5, h6, h7, h8]
  · intro p w1 w2
    exact ⟨_, rfl, by simp⟩

/-- C4 (as amended). `GetTeamProfileContext` makes one call, to path `team.profile.get`,
whose form holds `token` and, exactly when the caller supplied at least one team id
(empty string or not), `team_id` with the whole list of supplied ids, so its first value
is the first supplied id; no other key. With no team id the form is only `token`. -/
theorem GetTeamProfileContext_form (api : Client) (ctx : Context) (teamID : List String) :
    (∃ form, (api.GetTeamProfileContext ctx teamID).calls
        = [⟨ctx, "team.profile.get", form⟩] ∧
      form.get "token" = some [api.token] ∧
      form.get "team_id" = (if teamID = [] then none else some teamID) ∧
      (∀ k, k ≠ "token" → k ≠ "team_id" → form.get k = none)) ∧
    (api.GetTeamProfileContext ctx []).calls
      = [⟨ctx, "team.profile.get", Values.token api.token⟩] := by
  refine ⟨⟨_, rfl, by simp, ?_, ?_⟩, rfl⟩
  · cases teamID <;> simp
  · intro k h1 h2
    simp [h1, h2]

/-- C4 fails as stated: called with the empty-string team id, `GetTeamProfileContext`
submits a form that does hold a `team_id` field (with the value `""`), not only `token`;
and called with two ids it submits both, not only the first. -/
theorem GetTeamProfileContext_empty_id_is_sent :
    ¬ (∀ c ∈ ((stubClient "xoxb" okAnswer).GetTeamProfileContext sampleContext [""]).calls,
        c.values.get "team_id" = none) ∧
    ¬ (∀ c ∈ ((stubClient "xoxb" okAnswer).GetTeamProfileContext sampleContext
          ["T1", "T2"]).calls,
        c.values.get "team_id" = some ["T1"]) := by
  constructor
  · intro h
    have h1 := h ⟨sampleContext, "team.profile.get",
      (Values.token "xoxb").set "team_id" [""]⟩ (List.mem_singleton_self _)
    simp at h1
  · intro h
    have h1 := h ⟨sampleContext, "team.profile.get",
      (Values.token "xoxb").set "team_id" ["T1", "T2"]⟩ (List.mem_singleton_self _)
    simp at h1

/-- C7. For every context, client and transport, `GetOtherTeamInfoContext` called with the
empty team string makes the same call and returns the same results as
`GetTeamInfoContext`: one call to path `team.info` whose form holds only `token`. For
every non-empty team string its one call, to `team.info`, has exactly the form `token`
plus `team` with that string. -/
theorem GetOtherTeamInfoContext_request (api : Client) (ctx : Context) :
    api.GetOtherTeamInfoContext ctx "" = api.GetTeamInfoContext ctx ∧
    (api.GetTeamInfoContext ctx).calls = [⟨ctx, "team.info", Values.token api.token⟩] ∧
    (∀ k, (Values.token api.token).get k = if k = "token" then some [api.token] else none) ∧
    (∀ team : String, team ≠ "" →
      ∃ form, (api.GetOtherTeamInfoContext ctx team).calls = [⟨ctx, "team.info", form⟩] ∧
        form.get "token" = some [api.token] ∧
        form.get "team" = some [team] ∧
        (∀ k, k ≠ "token" → k ≠ "team" → form.get k = none)) := by
  refine ⟨Client.GetOtherTeamInfoContext_empty api ctx, rfl, fun _ => rfl, ?_⟩
  intro team ht
  simp only [Client.GetOtherTeamInfoContext, if_neg ht]
  refine ⟨_, rfl, by simp, by simp, ?_⟩
  intro k h1 h2
  simp [h1, h2]

/-- C7 at a concrete input: with team `"T2"` the form holds `token` and `team`. -/
theorem GetOtherTeamInfoContext_request_witness :
    ("T2" : String) ≠ "" ∧
    ∃ form, ((stubClient "xoxb" okAnswer).GetOtherTeamInfoContext sampleContext "T2").calls
        = [⟨sampleContext, "team.info", form⟩] ∧
      form.get "token" = some ["xoxb"] ∧
      form.get "team" = some ["T2"] ∧
      (∀ k, k ≠ "token" → k ≠ "team" → form.get k = none) :=
  ⟨by decide,
    (GetOtherTeamInfoContext_request (stubClient "xoxb" okAnswer) sampleContext).2.2.2
      "T2" (by decide)⟩

/-! ## Results on an error envelope -/

/-- C2. For `GetTeamInfoContext`, `GetOtherTeamInfoContext` (any team string),
`GetTeamProfileContext` and `GetAccessLogsContext`: whenever the transport call succeeds
and the decoded envelope reports an error (`ok` false, error `X`), whatever the decoded
payload fields hold, the operation returns the error built from `X` and nil payloads (nil
`*TeamInfo`, nil `*TeamProfile`, nil logins and nil `*Paging`). Moreover none of the four
ever returns a non-nil payload together with a non-nil error. -/
theorem envelope_error_returns_nil_payload (api : Client) (ctx : Context) :
    (∀ r : TeamResponse, r.Ok = false →
      (∀ c ∈ (api.GetTeamInfoContext ctx).calls,
        api.postMethod c.ctx c.path c.values DestKind.teamResponse ({} : TeamResponse)
          = (none, r)) →
      (api.GetTeamInfoContext ctx).ret
        = Outcome.returned (none, some (GoError.slackErrorResponse r.Error))) ∧
    (∀ (team : String) (r : TeamResponse), r.Ok = false →
      (∀ c ∈ (api.GetOtherTeamInfoContext ctx team).calls,
        api.postMethod c.ctx c.path c.values DestKind.teamResponse ({} : TeamResponse)
          = (none, r)) →
      (api.GetOtherTeamInfoContext ctx team).ret
        = Outcome.returned (none, some (GoError.slackErrorResponse r.Error))) ∧
    (∀ (teamID : List String) (r : TeamProfileResponse), r.Ok = false →
      (∀ c ∈ (api.GetTeamProfileContext ctx teamID).calls,
        api.postMethod c.ctx c.path c.values DestKind.teamProfileResponse
          ({} : TeamProfileResponse) = (none, r)) →
      (api.GetTeamProfileContext ctx teamID).ret
        = Outcome.returned (none, some (GoError.slackErrorResponse r.Error))) ∧
    (∀ (params : AccessLogParameters) (r : LoginResponse), r.Ok = false →
      (∀ c ∈ (api.GetAccessLogsContext ctx params).calls,
        api.postMethod c.ctx c.path c.values DestKind.loginResponse ({} : LoginResponse)
          = (none, r)) →
      (api.GetAccessLogsContext ctx params).ret
        = Outcome.returned (none, none, some (GoError.slackErrorResponse r.Error))) ∧
    (∀ (payload : Option TeamInfo) (e : GoError),
      (api.GetTeamInfoContext ctx).ret = Outcome.returned (payload, some e) →
      payload = none) ∧
    (∀ (team : String) (payload : Option TeamInfo) (e : GoError),
      (api.GetOtherTeamInfoContext ctx team).ret = Outcome.returned (payload, some e) →
      payload = none) ∧
    (∀ (teamID : List String) (payload : Option TeamProfile) (e : GoError),
      (api.GetTeamProfileContext ctx teamID).ret = Outcome.returned (payload, some e) →
      payload = none) ∧
    (∀ (params : AccessLogParameters) (logins : Slice Login) (paging : Option Paging)
        (e : GoError),
      (api.GetAccessLogsContext ctx params).ret = Outcome.returned (logins, paging, some e) →
      logins = none ∧ paging = none) := by
  refine ⟨?_, ?_, ?_, ?_, ?_, ?_, ?_, ?_⟩
  · intro r hok h
    obtain ⟨c, hc, hret⟩ := Client.GetTeamInfoContext_spec api ctx
    rw [hc] at h
    rw [hret none r (h c (List.mem_singleton_self c))]
    simp [SlackResponse.Err, hok]
  · intro team r hok h
    obtain ⟨c, hc, hret⟩ := Client.GetOtherTeamInfoContext_spec api ctx team
    rw [hc] at h
    rw [hret none r (h c (List.mem_singleton_self c))]
    simp [SlackResponse.Err, hok]
  · intro teamID r hok h
    obtain ⟨c, hc, hret⟩ := Client.GetTeamProfileContext_spec api ctx teamID
    rw [hc] at h
    rw [hret none r (h c (List.mem_singleton_self c))]
    simp [SlackResponse.Err, hok]
  · intro params r hok h
    obtain ⟨c, hc, hret⟩ := Client.GetAccessLogsContext_spec api ctx params
    rw [hc] at h
    rw [hret none r (h c (List.mem_singleton_self c))]
    simp [SlackResponse.Err, hok]
  · intro payload e h
    obtain ⟨c, _, hret⟩ := Client.GetTeamInfoContext_spec api ctx
    rw [hret _ _ rfl] at h
    split at h <;> simp_all
  · intro team payload e h
    obtain ⟨c, _, hret⟩ := Client.GetOtherTeamInfoContext_spec api ctx team
    rw [hret _ _ rfl] at h
    split at h <;> simp_all
  · intro teamID payload e h
    obtain ⟨c, _, hret⟩ := Client.GetTeamProfileContext_spec api ctx teamID
    rw [hret _ _ rfl] at h
    split at h <;> simp_all
  · intro params logins paging e h
    obtain ⟨c, _, hret⟩ := Client.GetAccessLogsContext_spec api ctx params
    rw [hret _ _ rfl] at h
    split at h <;> simp_all

/-- C2 at a concrete input: a stub answering `{ok:false, error:"invalid_auth"}` with every
payload field populated; each of the four operations returns nil payloads and the error
built from `"invalid_auth"`. -/
theorem envelope_error_returns_nil_payload_witness :
    ((stubClient "xoxb" errorAnswer).GetTeamInfoContext sampleContext).ret
      = Outcome.returned (none, some (GoError.slackErrorResponse "invalid_auth")) ∧
    ((stubClient "xoxb" errorAnswer).GetOtherTeamInfoContext sampleContext "T2").ret
      = Outcome.returned (none, some (GoError.slackErrorResponse "invalid_auth")) ∧
    ((stubClient "xoxb" errorAnswer).GetTeamProfileContext sampleContext ["T2"]).ret
      = Outcome.returned (none, some (GoError.slackErrorResponse "invalid_auth")) ∧
    ((stubClient "xoxb" errorAnswer).GetAccessLogsContext sampleContext
        NewAccessLogParameters).ret
      = Outcome.returned (none, none, some (GoError.slackErrorResponse "invalid_auth")) :=
  have h := envelope_error_returns_nil_payload (stubClient "xoxb" errorAnswer) sampleContext
  ⟨h.1 (errorAnswer DestKind.teamResponse).2 rfl (fun _ _ => rfl),
    h.2.1 "T2" (errorAnswer DestKind.teamResponse).2 rfl (fun _ _ => rfl),
    h.2.2.1 ["T2"] (errorAnswer DestKind.teamProfileResponse).2 rfl (fun _ _ => rfl),
    h.2.2.2.1 NewAccessLogParameters (errorAnswer DestKind.loginResponse).2 rfl
      (fun _ _ => rfl)⟩

/-- C1 does not hold of the code. A stub answers `{ok:false, error:"invalid_auth"}` with
the payload fields populated. `GetBillableInfoContext` returns the error built from
`"invalid_auth"` together with the decoded, non-nil billable-info map, not a nil map.
`GetExternalTeamsContext` returns nil organizations and an empty cursor, but its error is
the one of its own untouched zero-value envelope, which does not carry `"invalid_auth"`. -/
theorem envelope_error_keeps_billable_payload :
    ((stubClient "xoxb" errorAnswer).GetBillableInfoContext sampleContext {}).ret
      = (some sampleBillableInfo, some (GoError.slackErrorResponse "invalid_auth")) ∧
    ((stubClient "xoxb" errorAnswer).GetBillableInfoContext sampleContext {}).ret.1 ≠ none ∧
    ((stubClient "xoxb" errorAnswer).GetExternalTeamsContext sampleContext none).ret
      = (none, "", SlackResponse.Err {}) ∧
    ((stubClient "xoxb" errorAnswer).GetExternalTeamsContext sampleContext none).ret.2.2
      ≠ some (GoError.slackErrorResponse "invalid_auth") := by
  refine ⟨rfl, ?_, rfl, ?_⟩
  · intro h
    cases h
  · intro h
    have h1 : ((stubClient "xoxb" errorAnswer).GetExternalTeamsContext sampleContext none).ret.2.2
        = some (GoError.slackErrorResponse "") := rfl
    rw [h1] at h
    simp at h

/-- C3 does not hold of the code. A stub decodes `{ok:true, organizations: [org],
response_metadata: {next_cursor: "bmV4dA"}}` into the destination it is handed;
`GetExternalTeamsContext` returns nil organizations, the empty cursor and the error of its
own untouched zero-value envelope, not the decoded list, the cursor and a nil error. -/
theorem GetExternalTeamsContext_drops_decoded_response :
    ((stubClient "xoxb" okAnswer).GetExternalTeamsContext sampleContext none).ret
      = (none, "", SlackResponse.Err {}) ∧
    ((stubClient "xoxb" okAnswer).GetExternalTeamsContext sampleContext none).ret
      ≠ (some [some sampleOrganization], "bmV4dA", none) := by
  refine ⟨rfl, ?_⟩
  intro h
  have h1 := congrArg Prod.fst h
  cases h1

/-! ## Results on a transport error and on a successful envelope -/

/-- C9. For each of the six operations and every input: the operation makes exactly one
post call, and if that call returns a non-nil error `e`, the operation returns that same
`e` as its error with all payload results zero-valued (nil pointers, nil map, nil slices,
empty cursor). -/
theorem transport_error_is_returned (api : Client) (ctx : Context) (e : GoError) :
    ((api.GetTeamInfoContext ctx).calls.length = 1 ∧
      ((∀ c ∈ (api.GetTeamInfoContext ctx).calls,
        (api.postMethod c.ctx c.path c.values DestKind.teamResponse ({} : TeamResponse)).1
          = some e) →
      (api.GetTeamInfoContext ctx).ret = Outcome.returned (none, some e))) ∧
    (∀ team : String, (api.GetOtherTeamInfoContext ctx team).calls.length = 1 ∧
      ((∀ c ∈ (api.GetOtherTeamInfoContext ctx team).calls,
        (api.postMethod c.ctx c.path c.values DestKind.teamResponse ({} : TeamResponse)).1
          = some e) →
      (api.GetOtherTeamInfoContext ctx team).ret = Outcome.returned (none, some e))) ∧
    (∀ teamID : List String, (api.GetTeamProfileContext ctx teamID).calls.length = 1 ∧
      ((∀ c ∈ (api.GetTeamProfileContext ctx teamID).calls,
        (api.postMethod c.ctx c.path c.values DestKind.teamProfileResponse
          ({} : TeamProfileResponse)).1 = some e) →
      (api.GetTeamProfileContext ctx teamID).ret = Outcome.returned (none, some e))) ∧
    (∀ params : AccessLogParameters, (api.GetAccessLogsContext ctx params).calls.length = 1 ∧
      ((∀ c ∈ (api.GetAccessLogsContext ctx params).calls,
        (api.postMethod c.ctx c.path c.values DestKind.loginResponse ({} : LoginResponse)).1
          = some e) →
      (api.GetAccessLogsContext ctx params).ret = Outcome.returned (none, none, some e))) ∧
    (∀ params : GetBillableInfoParams,
      (api.GetBillableInfoContext ctx params).calls.length = 1 ∧
      ((∀ c ∈ (api.GetBillableInfoContext ctx params).calls,
        (api.postMethod c.ctx c.path c.values DestKind.billableInfoResponse
          ({} : BillableInfoResponse)).1 = some e) →
      (api.GetBillableInfoContext ctx params).ret = (none, some e))) ∧
    (∀ params : Option GetExternalTeamsParameters,
      (api.GetExternalTeamsContext ctx params).calls.length = 1 ∧
      ((∀ c ∈ (api.GetExternalTeamsContext ctx params).calls,
        (api.postMethod c.ctx c.path c.values DestKind.externalTeamsResponse
          ({} : ExternalTeamsResponse)).1 = some e) →
      (api.GetExternalTeamsContext ctx params).ret = (none, "", some e))) := by
  refine ⟨?_, ?_, ?_, ?_, ?_, ?_⟩
  · obtain ⟨c, hc, hret⟩ := Client.GetTeamInfoContext_spec api ctx
    refine ⟨by rw [hc]; rfl, fun h => ?_⟩
    rw [hc] at h
    have hp := h c (List.mem_singleton_self c)
    have hr := hret _ _ rfl
    rw [hp] at hr
    exact hr
  · intro team
    obtain ⟨c, hc, hret⟩ := Client.GetOtherTeamInfoContext_spec api ctx team
    refine ⟨by rw [hc]; rfl, fun h => ?_⟩
    rw [hc] at h
    have hp := h c (List.mem_singleton_self c)
    have hr := hret _ _ rfl
    rw [hp] at hr
    exact hr
  · intro teamID
    obtain ⟨c, hc, hret⟩ := Client.GetTeamProfileContext_spec api ctx teamID
    refine ⟨by rw [hc]; rfl, fun h => ?_⟩
    rw [hc] at h
    have hp := h c (List.mem_singleton_self c)
    have hr := hret _ _ rfl
    rw [hp] at hr
    exact hr
  · intro params
    obtain ⟨c, hc, hret⟩ := Client.GetAccessLogsContext_spec api ctx params
    refine ⟨by rw [hc]; rfl, fun h => ?_⟩
    rw [hc] at h
    have hp := h c (List.mem_singleton_self c)
    have hr := hret _ _ rfl
    rw [hp] at hr
    exact hr
  · intro params
    obtain ⟨c, hc, hret⟩ := Client.GetBillableInfoContext_spec api ctx params
    refine ⟨by rw [hc]; rfl, fun h => ?_⟩
    rw [hc] at h
    have hp := h c (List.mem_singleton_self c)
    have hr := hret _ _ rfl
    rw [hp] at hr
    exact hr
  · intro params
    obtain ⟨c, hc, hret⟩ := Client.GetExternalTeamsContext_spec api ctx params
    refine ⟨by rw [hc]; rfl, fun h => ?_⟩
    rw [hc] at h
    have hp := h c (List.mem_singleton_self c)
    have hr := hret _ _ rfl
    rw [hp] at hr
    exact hr

/-- C9 at a concrete input: a stub whose post call fails with "connection refused"; each
of the six operations returns that error and zero-valued payloads. -/
theorem transport_error_is_returned_witness :
    ((stubClient "xoxb" (failedAnswer (GoError.transport "connection refused"))).GetTeamInfoContext
        sampleContext).ret
      = Outcome.returned (none, some (GoError.transport "connection refused")) ∧
    ((stubClient "xoxb" (failedAnswer (GoError.transport "connection refused"))).GetOtherTeamInfoContext
        sampleContext "T2").ret
      = Outcome.returned (none, some (GoError.transport "connection refused")) ∧
    ((stubClient "xoxb" (failedAnswer (GoError.transport "connection refused"))).GetTeamProfileContext
        sampleContext []).ret
      = Outcome.returned (none, some (GoError.transport "connection refused")) ∧
    ((stubClient "xoxb" (failedAnswer (GoError.transport "connection refused"))).GetAccessLogsContext
        sampleContext NewAccessLogParameters).ret
      = Outcome.returned (none, none, some (GoError.transport "connection refused")) ∧
    ((stubClient "xoxb" (failedAnswer (GoError.transport "connection refused"))).GetBillableInfoContext
        sampleContext {}).ret
      = (none, some (GoError.transport "connection refused")) ∧
    ((stubClient "xoxb" (failedAnswer (GoError.transport "connection refused"))).GetExternalTeamsContext
        sampleContext none).ret
      = (none, "", some (GoError.transport "connection refused")) :=
  have h := transport_error_is_returned
    (stubClient "xoxb" (failedAnswer (GoError.transport "connection refused"))) sampleContext
    (GoError.transport "connection refused")
  ⟨h.1.2 (fun _ _ => rfl), (h.2.1 "T2").2 (fun _ _ => rfl), (h.2.2.1 []).2 (fun _ _ => rfl),
    (h.2.2.2.1 NewAccessLogParameters).2 (fun _ _ => rfl), (h.2.2.2.2.1 {}).2 (fun _ _ => rfl),
    (h.2.2.2.2.2 none).2 (fun _ _ => rfl)⟩

/-- C10. For `GetTeamInfoContext`, `GetOtherTeamInfoContext`, `GetTeamProfileContext`,
`GetAccessLogsContext` and `GetBillableInfoContext`: whenever the transport succeeds and
the decoded envelope reports no error (`ok` true), the operation returns a nil error and
the decoded fields unchanged: the decoded team, the decoded profile, the decoded logins
with the decoded paging, the decoded billable-info map. -/
theorem ok_envelope_returns_decoded_payload (api : Client) (ctx : Context) :
    (∀ r : TeamResponse, r.Ok = true →
      (∀ c ∈ (api.GetTeamInfoContext ctx).calls,
        api.postMethod c.ctx c.path c.values DestKind.teamResponse ({} : TeamResponse)
          = (none, r)) →
      (api.GetTeamInfoContext ctx).ret = Outcome.returned (some r.Team, none)) ∧
    (∀ (team : String) (r : TeamResponse), r.Ok = true →
      (∀ c ∈ (api.GetOtherTeamInfoContext ctx team).calls,
        api.postMethod c.ctx c.path c.values DestKind.teamResponse ({} : TeamResponse)
          = (none, r)) →
      (api.GetOtherTeamInfoContext ctx team).ret = Outcome.returned (some r.Team, none)) ∧
    (∀ (teamID : List String) (r : TeamProfileResponse), r.Ok = true →
      (∀ c ∈ (api.GetTeamProfileContext ctx teamID).calls,
        api.postMethod c.ctx c.path c.values DestKind.teamProfileResponse
          ({} : TeamProfileResponse) = (none, r)) →
      (api.GetTeamProfileContext ctx teamID).ret = Outcome.returned (some r.Profile, none)) ∧
    (∀ (params : AccessLogParameters) (r : LoginResponse), r.Ok = true →
      (∀ c ∈ (api.GetAccessLogsContext ctx params).calls,
        api.postMethod c.ctx c.path c.values DestKind.loginResponse ({} : LoginResponse)
          = (none, r)) →
      (api.GetAccessLogsContext ctx params).ret
        = Outcome.returned (r.Logins, some r.Paging, none)) ∧
    (∀ (params : GetBillableInfoParams) (r : BillableInfoResponse), r.Ok = true →
      (∀ c ∈ (api.GetBillableInfoContext ctx params).calls,
        api.postMethod c.ctx c.path c.values DestKind.billableInfoResponse
          ({} : BillableInfoResponse) = (none, r)) →
      (api.GetBillableInfoContext ctx params).ret = (r.BillableInfo, none)) := by
  refine ⟨?_, ?_, ?_, ?_, ?_⟩
  · intro r hok h
    obtain ⟨c, hc, hret⟩ := Client.GetTeamInfoContext_spec api ctx
    rw [hc] at h
    rw [hret none r (h c (List.mem_singleton_self c))]
    simp [SlackResponse.Err, hok]
  · intro team r hok h
    obtain ⟨c, hc, hret⟩ := Client.GetOtherTeamInfoContext_spec api ctx team
    rw [hc] at h
    rw [hret none r (h c (List.mem_singleton_self c))]
    simp [SlackResponse.Err, hok]
  · intro teamID r hok h
    obtain ⟨c, hc, hret⟩ := Client.GetTeamProfileContext_spec api ctx teamID
    rw [hc] at h
    rw [hret none r (h c (List.mem_singleton_self c))]
    simp [SlackResponse.Err, hok]
  · intro params r hok h
    obtain ⟨c, hc, hret⟩ := Client.GetAccessLogsContext_spec api ctx params
    rw [hc] at h
    rw [hret none r (h c (List.mem_singleton_self c))]
    simp [SlackResponse.Err, hok]
  · intro params r hok h
    obtain ⟨c, hc, hret⟩ := Client.GetBillableInfoContext_spec api ctx params
    rw [hc] at h
    rw [hret none r (h c (List.mem_singleton_self c))]
    simp [SlackResponse.Err, hok]

/-- C10 at a concrete input: a stub answering `{ok:true, ...}` with every payload field
populated; each of the five operations returns the decoded payload and a nil error. -/
theorem ok_envelope_returns_decoded_payload_witness :
    ((stubClient "xoxb" okAnswer).GetTeamInfoContext sampleContext).ret
      = Outcome.returned (some sampleTeam, none) ∧
    ((stubClient "xoxb" okAnswer).GetOtherTeamInfoContext sampleContext "T2").ret
      = Outcome.returned (some sampleTeam, none) ∧
    ((stubClient "xoxb" okAnswer).GetTeamProfileContext sampleContext ["T2"]).ret
      = Outcome.returned (some sampleProfile, none) ∧
    ((stubClient "xoxb" okAnswer).GetAccessLogsContext sampleContext
        NewAccessLogParameters).ret
      = Outcome.returned (some [sampleLogin], some samplePaging, none) ∧
    ((stubClient "xoxb" okAnswer).GetBillableInfoContext sampleContext {}).ret
      = (some sampleBillableInfo, none) :=
  have h := ok_envelope_returns_decoded_payload (stubClient "xoxb" okAnswer) sampleContext
  ⟨h.1 (okAnswer DestKind.teamResponse).2 rfl (fun _ _ => rfl),
    h.2.1 "T2" (okAnswer DestKind.teamResponse).2 rfl (fun _ _ => rfl),
    h.2.2.1 ["T2"] (okAnswer DestKind.teamProfileResponse).2 rfl (fun _ _ => rfl),
    h.2.2.2.1 NewAccessLogParameters (okAnswer DestKind.loginResponse).2 rfl (fun _ _ => rfl),
    h.2.2.2.2 {} (okAnswer DestKind.billableInfoResponse).2 rfl (fun _ _ => rfl)⟩

end Slack
